import Mathlib

/-!
# AI Receptionist — session lifecycle and conversation-turn engine

Shallow embedding of the public-session core of `src/app.py`:
the in-memory session store (`sessions` dict guarded by `sessions_lock`),
the conversation handlers `start_public_session`, `send_public_message`,
`end_public_session`, the completion client / fallback policy in
`generate_ai_response`, and one pass of the background sweep in
`cleanup_sessions`.

Modelling conventions:
* Timestamps (`datetime.utcnow()`) are integers counting seconds; the code
  only compares differences of timestamps in whole seconds.
* The session store (a Python dict keyed by session id) is an association
  list with dict semantics: assignment overwrites, `pop`/`del` remove the
  key, lookup returns the value stored under the key.
* External effects are parameters: the completion HTTP call is an
  `LLMOutcome` (its observable result), the database interaction during
  `end_public_session` is a `PersistOutcome`, the user row found for a slug
  is an `Option PubUser`, and the generated `uuid4` session id is an input
  string (its freshness is a hypothesis where a claim needs it).
* Python `str.strip()` is `pyStrip` (drop whitespace from both ends).
* Apostrophes inside the literal reply strings of the source are written
  with the escape `\x27`.
-/

/-- Python `str.strip()`: remove leading and trailing whitespace. -/
def pyStrip (s : String) : String :=
  ⟨((s.data.dropWhile Char.isWhitespace).reverse.dropWhile Char.isWhitespace).reverse⟩

/-- One conversation turn, as stored in `session['history']`:
`{'role': ..., 'content': ...}`. -/
structure Turn where
  role : String
  content : String
deriving Repr, DecidableEq

/-- One active session, as stored in the `sessions` dict by
`start_public_session` (src/app.py lines 504-512). -/
structure Session where
  user_id : Nat
  slug : String
  caller_info : List (String × String)
  history : List Turn
  start_time : Int
  last_activity : Int
deriving Repr, DecidableEq

/-- The in-memory `sessions` dict: association list keyed by session id. -/
abbrev Store := List (String × Session)

/-- Dict lookup: `sessions.get(k)`. -/
def storeGet (st : Store) (k : String) : Option Session :=
  match st with
  | [] => none
  | (k', v) :: rest => if k' = k then some v else storeGet rest k

/-- Remove every binding of key `k` (`del sessions[k]` / the erasure part of
dict assignment). -/
def storeErase (st : Store) (k : String) : Store :=
  st.filter (fun p => p.1 != k)

/-- Dict assignment `sessions[k] = v`: overwrites any previous binding. -/
def storeInsert (st : Store) (k : String) (v : Session) : Store :=
  (k, v) :: storeErase st k

/-- Observable result of the completion HTTP call made by
`generate_ai_response` (src/app.py lines 640-657):
* `ok c` — status 200; `c` is the payload's `choices[0].message.content`
  when that key is present, `none` when it is absent;
* `badStatus code` — the request returned a non-200 status;
* `exn` — `requests.post` or `response.json()` raised (timeout, connection
  error, unparsable body). -/
inductive LLMOutcome where
  | ok (content : Option String)
  | badStatus (code : Nat)
  | exn
deriving Repr, DecidableEq

/-- Default reply used when a 200 payload lacks the content field
(src/app.py line 657). -/
def defaultContentReply : String := "I understand. Let me take a message for you."

/-- Reply returned when the LLM call does not yield a 200 status
(src/app.py line 660). -/
def fallbackUnavailable : String := "Thank you for your message. I\x27ll make sure it gets delivered."

/-- Reply returned when the LLM call raises an exception
(src/app.py line 664). -/
def fallbackException : String := "I apologize for the inconvenience. Your message has been noted."

/-- `generate_ai_response` (src/app.py lines 621-664), as a function of the
observable outcome of the completion call.  The system prompt and message
list it builds do not influence which branch returns. -/
def generate_ai_response (outcome : LLMOutcome) : String :=
  match outcome with
  | .ok (some c) => c
  | .ok none => defaultContentReply
  | .badStatus _ => fallbackUnavailable
  | .exn => fallbackException

/-- Response of the `/v1/receptionist/public/message` route:
either `{'status':'success','response': r}` or `({'error': m}, code)`. -/
inductive MsgResp where
  | ok (response : String)
  | err (msg : String) (code : Nat)
deriving Repr, DecidableEq

/-- `send_public_message` (src/app.py lines 529-564).  `sid0` and `msg0` are
the optional `session_id` and `message` fields of the request body
(`data.get(..., '')`); `outcome` is the completion call's result; `now` is
`datetime.utcnow()` at the activity refresh.  Returns the HTTP response and
the store after the request. -/
def send_public_message (sid0 msg0 : Option String) (outcome : LLMOutcome)
    (now : Int) (store : Store) : MsgResp × Store :=
  let session_id := pyStrip (sid0.getD "")
  let message := pyStrip (msg0.getD "")
  if session_id = "" ∨ message = "" then
    (.err "Session ID and message required" 400, store)
  else
    match storeGet store session_id with
    | none => (.err "Session not found" 404, store)
    | some session =>
      let session1 := { session with history := session.history ++ [Turn.mk "user" message] }
      let ai_response := generate_ai_response outcome
      let session2 := { session1 with
        history := session1.history ++ [Turn.mk "assistant" ai_response],
        last_activity := now }
      (.ok ai_response, storeInsert store session_id session2)

/-- Observable result of the database interaction in `end_public_session`
(src/app.py lines 586-606):
* `noConn` — `get_db_connection()` returned `None`, the insert is skipped;
* `insertOk` — the insert and commit succeeded;
* `insertErr` — `cursor.execute`/`commit` raised; the `try/finally` has no
  `except`, so the exception reaches the route's outer handler. -/
inductive PersistOutcome where
  | noConn
  | insertOk
  | insertErr
deriving Repr, DecidableEq

/-- The row inserted into `receptionist_calls` (src/app.py lines 590-602). -/
structure CallRecord where
  user_id : Nat
  session_id : String
  caller_info : List (String × String)
  conversation : List Turn
  summary : String
  duration : Int
  created_at : Int
deriving Repr, DecidableEq

/-- Response of the `/v1/receptionist/public/end` route:
* `ok d` — `{'status':'success','duration': d}`;
* `okNotFound` — `{'status':'success','message':'Session not found'}`;
* `err m code` — `({'error': m}, code)`. -/
inductive EndResp where
  | ok (duration : Int)
  | okNotFound
  | err (msg : String) (code : Nat)
deriving Repr, DecidableEq

/-- `end_public_session` (src/app.py lines 566-615).  `sid0` is the optional
`session_id` request field, `persist` the database interaction's result,
`now` is `datetime.utcnow()` at the duration computation.  Returns the HTTP
response, the store after the request, and the `receptionist_calls` row that
was durably inserted (if any). -/
def end_public_session (sid0 : Option String) (persist : PersistOutcome)
    (now : Int) (store : Store) : EndResp × Store × Option CallRecord :=
  let session_id := pyStrip (sid0.getD "")
  if session_id = "" then
    (.err "Session ID required" 400, store, none)
  else
    match storeGet store session_id with
    | none => (.okNotFound, store, none)
    | some session =>
      let store1 := storeErase store session_id
      let duration : Int := now - session.start_time
      match persist with
      | .noConn => (.ok duration, store1, none)
      | .insertOk =>
          (.ok duration, store1,
            some ⟨session.user_id, session_id, session.caller_info,
                  session.history, "Session ended", duration, session.start_time⟩)
      | .insertErr => (.err "Failed to end session" 500, store1, none)

/-- The user row `start_public_session` resolves from the slug
(`SELECT u.id, u.name, u.preferences ...`, src/app.py lines 482-490). -/
structure PubUser where
  id : Nat
  name : String
deriving Repr, DecidableEq

/-- The greeting built at src/app.py line 499 from the owner's display
name. -/
def greetingFor (name : String) : String :=
  "Hello! You\x27ve reached " ++ name ++ "\x27s AI receptionist. How can I help you today?"

/-- Response of the `/v1/receptionist/public/start` route. -/
inductive StartResp where
  | ok (session_id : String) (greeting : String)
  | err (msg : String) (code : Nat)
deriving Repr, DecidableEq

/-- `start_public_session` (src/app.py lines 465-527).  `slug0` is the
optional `slug` request field, `caller_info` the request's metadata,
`dbUser` the row found for the slug (`none` when no active link matches),
`sid` the generated `uuid.uuid4()` string, `now` is `datetime.utcnow()` at
session creation. -/
def start_public_session (slug0 : Option String) (caller_info : List (String × String))
    (dbUser : Option PubUser) (sid : String) (now : Int) (store : Store) :
    StartResp × Store :=
  let slug := pyStrip (slug0.getD "")
  if slug = "" then
    (.err "Slug required" 400, store)
  else
    match dbUser with
    | none => (.err "Invalid link" 404, store)
    | some user =>
      let greeting := greetingFor user.name
      let newSession : Session :=
        { user_id := user.id, slug := slug, caller_info := caller_info,
          history := [], start_time := now, last_activity := now }
      (.ok sid greeting, storeInsert store sid newSession)

/-- The idle threshold of the cleanup loop: 1800 seconds = 30 minutes
(src/app.py line 702). -/
def idleThresholdSeconds : Int := 1800

/-- One pass of the `cleanup_sessions` loop body (src/app.py lines 697-706):
collect the ids whose idle time exceeds 30 minutes, then delete each. -/
def cleanup_sessions_pass (now : Int) (store : Store) : Store :=
  let expired := (store.filter (fun p => now - p.2.last_activity > idleThresholdSeconds)).map Prod.fst
  expired.foldl storeErase store

/-- One caller-facing request against the shared store (used to state that a
removed id never again resolves to a live session). -/
inductive ReqOp where
  | start (slug0 : Option String) (caller_info : List (String × String))
      (dbUser : Option PubUser) (sid : String) (now : Int)
  | msg (sid0 msg0 : Option String) (outcome : LLMOutcome) (now : Int)
  | finish (sid0 : Option String) (persist : PersistOutcome) (now : Int)
  | sweep (now : Int)

/-- Effect of one request on the store. -/
def runOp (store : Store) : ReqOp → Store
  | .start slug0 ci dbUser sid now => (start_public_session slug0 ci dbUser sid now store).2
  | .msg sid0 msg0 outcome now => (send_public_message sid0 msg0 outcome now store).2
  | .finish sid0 persist now => (end_public_session sid0 persist now store).2.1
  | .sweep now => cleanup_sessions_pass now store

/-- Effect of a sequence of requests on the store. -/
def runOps (ops : List ReqOp) (store : Store) : Store :=
  ops.foldl runOp store

/-- The `uuid4` argument a `start` request carries (the only way a request
can bind a new key in the store). -/
def ReqOp.startId : ReqOp → Option String
  | .start _ _ _ sid _ => some sid
  | _ => none

/-- An outcome of the completion call that is not a 200 response carrying a
content field: a non-success status, a raised exception, or a 200 payload
missing the content field (malformed response). -/
def LLMOutcome.isFailure : LLMOutcome → Bool
  | .ok (some _) => false
  | _ => true

/-- Concrete session used to instantiate the theorems below (the spec's
end-to-end scenario: owner 1, caller named Alex). -/
def demoSession : Session :=
  { user_id := 1, slug := "acme", caller_info := [("name", "Alex")],
    history := [], start_time := 0, last_activity := 0 }

/-- Concrete one-session store used to instantiate the theorems below. -/
def demoStore : Store := [("S", demoSession)]

/-- A session whose last activity is recent enough to survive a sweep at
time 5000. -/
def recentSession : Session :=
  { user_id := 2, slug := "beta", caller_info := [],
    history := [], start_time := 3900, last_activity := 4000 }

/-- Two-session store: one idle past the threshold at time 5000, one not. -/
def demoStore2 : Store := [("S", demoSession), ("T", recentSession)]

/-- Concrete owner row used to instantiate the start-session theorems. -/
def demoUser : PubUser := { id := 1, name := "Dana" }

/-! ## Store lemmas -/

theorem storeGet_eq_none_iff (st : Store) (k : String) :
    storeGet st k = none ↔ ∀ p ∈ st, p.1 ≠ k := by
  induction st with
  | nil => simp [storeGet]
  | cons a t ih =>
    by_cases h : a.1 = k
    · cases a
      simp_all [storeGet]
    · cases a
      simp_all [storeGet]

theorem storeGet_insert_self (st : Store) (k : String) (v : Session) :
    storeGet (storeInsert st k v) k = some v := by
  simp [storeInsert, storeGet]

theorem storeGet_erase_ne (st : Store) (k k' : String) (h : k' ≠ k) :
    storeGet (storeErase st k) k' = storeGet st k' := by
  induction st with
  | nil => rfl
  | cons a t ih =>
    obtain ⟨ka, va⟩ := a
    simp only [storeErase, List.filter_cons] at ih ⊢
    by_cases ha : ka = k
    · have hne : ¬ k = k' := fun e => h e.symm
      simp [ha, storeGet, hne, ih]
    · by_cases hb : ka = k'
      · simp [ha, hb, storeGet, h]
      · simp [ha, hb, storeGet, ih]

theorem storeGet_erase_self (st : Store) (k : String) :
    storeGet (storeErase st k) k = none := by
  rw [storeGet_eq_none_iff]
  intro p hp
  have := (List.mem_filter.mp hp).2
  simpa using this

theorem storeGet_insert_ne (st : Store) (k k' : String) (v : Session) (h : k' ≠ k) :
    storeGet (storeInsert st k v) k' = storeGet st k' := by
  simp only [storeInsert, storeGet]
  rw [if_neg (fun hk => h hk.symm)]
  exact storeGet_erase_ne st k k' h

theorem storeGet_erase_none (st : Store) (k k' : String)
    (h : storeGet st k' = none) : storeGet (storeErase st k) k' = none := by
  rw [storeGet_eq_none_iff] at h ⊢
  intro p hp
  exact h p (List.mem_of_mem_filter hp)

theorem storeGet_filter_none (st : Store) (f : String × Session → Bool) (k : String)
    (h : storeGet st k = none) : storeGet (st.filter f) k = none := by
  rw [storeGet_eq_none_iff] at h ⊢
  intro p hp
  exact h p (List.mem_of_mem_filter hp)

theorem foldl_storeErase (ks : List String) (st : Store) :
    ks.foldl storeErase st = st.filter (fun p => decide (p.1 ∉ ks)) := by
  induction ks generalizing st with
  | nil => simp
  | cons k ks ih =>
    simp only [List.foldl_cons, ih, storeErase, List.filter_filter]
    apply List.filter_congr
    intro p _
    by_cases hk : p.1 = k
    · simp [hk]
    · by_cases hks : p.1 ∈ ks
      · simp [hk, hks]
      · simp [hk, hks]

theorem mem_key_eq (st : Store) (hN : (st.map Prod.fst).Nodup)
    (p q : String × Session) (hp : p ∈ st) (hq : q ∈ st) (h : p.1 = q.1) : p = q := by
  induction st with
  | nil => cases hp
  | cons a t ih =>
    simp only [List.map_cons, List.nodup_cons] at hN
    rcases List.mem_cons.mp hp with rfl | hp'
    · rcases List.mem_cons.mp hq with rfl | hq'
      · rfl
      · exact absurd (by rw [h]; exact List.mem_map_of_mem Prod.fst hq') hN.1
    · rcases List.mem_cons.mp hq with rfl | hq'
      · exact absurd (by rw [← h]; exact List.mem_map_of_mem Prod.fst hp') hN.1
      · exact ih hN.2 hp' hq'

theorem cleanup_eq_filter (now : Int) (st : Store)
    (hN : (st.map Prod.fst).Nodup) :
    cleanup_sessions_pass now st
      = st.filter (fun p => decide (now - p.2.last_activity ≤ idleThresholdSeconds)) := by
  unfold cleanup_sessions_pass
  rw [foldl_storeErase]
  apply List.filter_congr
  intro p hp
  apply decide_eq_decide.mpr
  constructor
  · intro hnot
    by_contra hgt
    exact hnot (List.mem_map_of_mem Prod.fst
      (List.mem_filter.mpr ⟨hp, by simpa using Int.lt_of_not_ge hgt⟩))
  · intro hle hm
    obtain ⟨q, hq, hqk⟩ := List.mem_map.mp hm
    obtain ⟨hqst, hqc⟩ := List.mem_filter.mp hq
    have : q = p := mem_key_eq st hN q p hqst hp hqk
    subst this
    simp only [decide_eq_true_eq] at hqc
    exact absurd hle (not_le.mpr hqc)

/-! ## Message handler characterization -/

theorem send_message_live_eq
    (sid m : String) (s : Session) (outcome : LLMOutcome) (now : Int) (st : Store)
    (hsid : pyStrip sid = sid) (hm : pyStrip m = m)
    (hsne : sid ≠ "") (hmne : m ≠ "")
    (hget : storeGet st sid = some s) :
    send_public_message (some sid) (some m) outcome now st
      = (.ok (generate_ai_response outcome),
         storeInsert st sid
           { s with
             history := s.history ++ [Turn.mk "user" m,
                                      Turn.mk "assistant" (generate_ai_response outcome)],
             last_activity := now }) := by
  simp only [send_public_message, Option.getD_some, hsid, hm]
  rw [if_neg (by simp [hsne, hmne])]
  rw [hget]
  simp [List.append_assoc]

/-- C1: a message handled against an existing session appends exactly two
turns at the end of its history — the caller turn (role `user`) then the
assistant turn — the reply returned to the caller is the content of that
assistant turn, and when the completion client succeeds the reply equals
the client's returned text. -/
theorem handle_message_appends_two_turns
    (sid m : String) (s : Session) (outcome : LLMOutcome) (now : Int) (st : Store)
    (hsid : pyStrip sid = sid) (hm : pyStrip m = m)
    (hsne : sid ≠ "") (hmne : m ≠ "")
    (hget : storeGet st sid = some s) :
    (send_public_message (some sid) (some m) outcome now st).1
        = MsgResp.ok (generate_ai_response outcome)
    ∧ storeGet (send_public_message (some sid) (some m) outcome now st).2 sid
        = some { s with
            history := s.history ++ [Turn.mk "user" m,
                                     Turn.mk "assistant" (generate_ai_response outcome)],
            last_activity := now }
    ∧ (∀ c, outcome = .ok (some c) → generate_ai_response outcome = c) := by
  rw [send_message_live_eq sid m s outcome now st hsid hm hsne hmne hget]
  refine ⟨rfl, storeGet_insert_self st sid _, ?_⟩
  rintro c rfl
  rfl

theorem handle_message_appends_two_turns_witness :
    pyStrip "S" = "S"
    ∧ pyStrip "What are your hours?" = "What are your hours?"
    ∧ "S" ≠ "" ∧ "What are your hours?" ≠ ""
    ∧ storeGet demoStore "S" = some demoSession
    ∧ (send_public_message (some "S") (some "What are your hours?")
          (.ok (some "We are open 9 to 5.")) 5 demoStore).1
        = MsgResp.ok "We are open 9 to 5."
    ∧ storeGet (send_public_message (some "S") (some "What are your hours?")
          (.ok (some "We are open 9 to 5.")) 5 demoStore).2 "S"
        = some { demoSession with
            history := [Turn.mk "user" "What are your hours?",
                        Turn.mk "assistant" "We are open 9 to 5."],
            last_activity := 5 } := by
  have h := handle_message_appends_two_turns "S" "What are your hours?" demoSession
    (.ok (some "We are open 9 to 5.")) 5 demoStore
    (by decide) (by decide) (by decide) (by decide) (by decide)
  exact ⟨by decide, by decide, by decide, by decide, by decide, h.1, h.2.1⟩

/-- C2 counterexample: there is no single fixed string that
`send_public_message` returns on every completion-client failure — a non-200
status yields one fixed reply and a raised exception a different one. -/
theorem fallback_not_single_fixed_string :
    ¬ ∃ fb : String, ∀ outcome : LLMOutcome, outcome.isFailure = true →
        (send_public_message (some "S") (some "hi") outcome 5 demoStore).1
          = MsgResp.ok fb := by
  rintro ⟨fb, h⟩
  have h1 := h (.badStatus 500) rfl
  have h2 := h .exn rfl
  have e1 : (send_public_message (some "S") (some "hi") (.badStatus 500) 5 demoStore).1
      = MsgResp.ok fallbackUnavailable := by decide
  have e2 : (send_public_message (some "S") (some "hi") .exn 5 demoStore).1
      = MsgResp.ok fallbackException := by decide
  rw [e1] at h1
  rw [e2] at h2
  have : fallbackUnavailable = fallbackException := by
    have := h1.trans h2.symm
    injection this
  exact absurd this (by decide)

/-- C2 (amended): on any completion-client failure the handler surfaces no
error — it returns a fixed, non-empty fallback string determined by the
failure kind (non-200 status, raised exception, or 200 payload missing the
content field) — and still appends exactly two turns, the caller message
followed by that fallback text. -/
theorem handle_message_failure_fallback
    (sid m : String) (s : Session) (outcome : LLMOutcome) (now : Int) (st : Store)
    (hsid : pyStrip sid = sid) (hm : pyStrip m = m)
    (hsne : sid ≠ "") (hmne : m ≠ "")
    (hget : storeGet st sid = some s)
    (hf : outcome.isFailure = true) :
    (send_public_message (some sid) (some m) outcome now st).1
        = MsgResp.ok (generate_ai_response outcome)
    ∧ generate_ai_response outcome ≠ ""
    ∧ (∀ code, outcome = .badStatus code → generate_ai_response outcome = fallbackUnavailable)
    ∧ (outcome = .exn → generate_ai_response outcome = fallbackException)
    ∧ (outcome = .ok none → generate_ai_response outcome = defaultContentReply)
    ∧ storeGet (send_public_message (some sid) (some m) outcome now st).2 sid
        = some { s with
            history := s.history ++ [Turn.mk "user" m,
                                     Turn.mk "assistant" (generate_ai_response outcome)],
            last_activity := now } := by
  rw [send_message_live_eq sid m s outcome now st hsid hm hsne hmne hget]
  refine ⟨rfl, ?_, ?_, ?_, ?_, storeGet_insert_self st sid _⟩
  · cases outcome with
    | ok c =>
      cases c with
      | none => decide
      | some c => simp [LLMOutcome.isFailure] at hf
    | badStatus code => exact (by decide : fallbackUnavailable ≠ "")
    | exn => decide
  · rintro code rfl
    rfl
  · rintro rfl
    rfl
  · rintro rfl
    rfl

theorem handle_message_failure_fallback_witness :
    pyStrip "S" = "S" ∧ pyStrip "hi" = "hi" ∧ "S" ≠ "" ∧ "hi" ≠ ""
    ∧ storeGet demoStore "S" = some demoSession
    ∧ LLMOutcome.exn.isFailure = true
    ∧ (send_public_message (some "S") (some "hi") .exn 5 demoStore).1
        = MsgResp.ok fallbackException
    ∧ storeGet (send_public_message (some "S") (some "hi") .exn 5 demoStore).2 "S"
        = some { demoSession with
            history := [Turn.mk "user" "hi", Turn.mk "assistant" fallbackException],
            last_activity := 5 } := by
  have h := handle_message_failure_fallback "S" "hi" demoSession .exn 5 demoStore
    (by decide) (by decide) (by decide) (by decide) (by decide) (by decide)
  exact ⟨by decide, by decide, by decide, by decide, by decide, by decide,
    h.1, h.2.2.2.2.2⟩

/-- C10: a message request whose session id or message is absent or
whitespace-only is rejected with the validation error (status 400) and the
store is left completely unchanged — nothing is appended to any session. -/
theorem message_blank_rejected
    (sid0 msg0 : Option String) (outcome : LLMOutcome) (now : Int) (st : Store)
    (h : pyStrip (sid0.getD "") = "" ∨ pyStrip (msg0.getD "") = "") :
    send_public_message sid0 msg0 outcome now st
      = (.err "Session ID and message required" 400, st) := by
  simp only [send_public_message]
  rw [if_pos h]

theorem message_blank_rejected_witness :
    (pyStrip ((some "S").getD "") = "" ∨ pyStrip ((some "   ").getD "") = "")
    ∧ send_public_message (some "S") (some "   ") (.ok none) 5 demoStore
        = (.err "Session ID and message required" 400, demoStore) :=
  ⟨Or.inr (by decide),
   message_blank_rejected (some "S") (some "   ") (.ok none) 5 demoStore
     (Or.inr (by decide))⟩

/-! ## End handler characterization -/

theorem end_session_live_eq
    (sid : String) (s : Session) (persist : PersistOutcome) (now : Int) (st : Store)
    (hsid : pyStrip sid = sid) (hne : sid ≠ "")
    (hget : storeGet st sid = some s) :
    end_public_session (some sid) persist now st
      = (match persist with
         | .noConn => (.ok (now - s.start_time), storeErase st sid, none)
         | .insertOk =>
             (.ok (now - s.start_time), storeErase st sid,
              some ⟨s.user_id, sid, s.caller_info, s.history, "Session ended",
                    now - s.start_time, s.start_time⟩)
         | .insertErr => (.err "Failed to end session" 500, storeErase st sid, none)) := by
  simp only [end_public_session, Option.getD_some, hsid]
  rw [if_neg hne, hget]

/-- C4 counterexample: when the insert into `receptionist_calls` raises, the
end request does not return a successful response with the duration — the
exception reaches the route's outer handler, which returns an error
(`'Failed to end session'`, status 500). -/
theorem end_insert_error_fails_response :
    (end_public_session (some "S") .insertErr 7 demoStore).1
        = EndResp.err "Failed to end session" 500
    ∧ ∀ d : Int, (end_public_session (some "S") .insertErr 7 demoStore).1
        ≠ EndResp.ok d := by
  refine ⟨by decide, ?_⟩
  intro d h
  have e : (end_public_session (some "S") .insertErr 7 demoStore).1
      = EndResp.err "Failed to end session" 500 := by decide
  rw [e] at h
  exact EndResp.noConfusion h

/-- C4 (amended): ending an existing session always removes it from the
store; when the persistence layer yields no database connection the response
still succeeds with the computed duration (and nothing is persisted), but an
error raised by the insert propagates to the route's generic handler, which
returns an error response (`'Failed to end session'`, 500) instead of
success. -/
theorem end_session_persist_outcomes
    (sid : String) (s : Session) (now : Int) (st : Store)
    (hsid : pyStrip sid = sid) (hne : sid ≠ "")
    (hget : storeGet st sid = some s) :
    (∀ persist, (end_public_session (some sid) persist now st).2.1 = storeErase st sid)
    ∧ (end_public_session (some sid) .noConn now st).1 = EndResp.ok (now - s.start_time)
    ∧ (end_public_session (some sid) .noConn now st).2.2 = none
    ∧ (end_public_session (some sid) .insertOk now st).1 = EndResp.ok (now - s.start_time)
    ∧ (end_public_session (some sid) .insertErr now st).1
        = EndResp.err "Failed to end session" 500 := by
  refine ⟨?_, ?_, ?_, ?_, ?_⟩
  · intro persist
    rw [end_session_live_eq sid s persist now st hsid hne hget]
    cases persist <;> rfl
  · rw [end_session_live_eq sid s .noConn now st hsid hne hget]
  · rw [end_session_live_eq sid s .noConn now st hsid hne hget]
  · rw [end_session_live_eq sid s .insertOk now st hsid hne hget]
  · rw [end_session_live_eq sid s .insertErr now st hsid hne hget]

theorem end_session_persist_outcomes_witness :
    pyStrip "S" = "S" ∧ "S" ≠ "" ∧ storeGet demoStore "S" = some demoSession
    ∧ (end_public_session (some "S") .noConn 7 demoStore).1 = EndResp.ok 7
    ∧ (end_public_session (some "S") .insertErr 7 demoStore).1
        = EndResp.err "Failed to end session" 500 := by
  have h := end_session_persist_outcomes "S" demoSession 7 demoStore
    (by decide) (by decide) (by decide)
  exact ⟨by decide, by decide, by decide, h.2.1, h.2.2.2.2⟩

/-- C6: ending an existing session removes it from the store and, when the
insert succeeds, records a row carrying the session's owner id, session id,
caller info, full history and `duration = now - startedAt`; the duration is
non-negative (for a clock that has not gone backwards) and the returned
duration equals the recorded one. -/
theorem end_session_finalized_record
    (sid : String) (s : Session) (now : Int) (st : Store)
    (hsid : pyStrip sid = sid) (hne : sid ≠ "")
    (hget : storeGet st sid = some s)
    (hstart : s.start_time ≤ now) :
    (end_public_session (some sid) .insertOk now st).1 = EndResp.ok (now - s.start_time)
    ∧ storeGet (end_public_session (some sid) .insertOk now st).2.1 sid = none
    ∧ (end_public_session (some sid) .insertOk now st).2.2
        = some ⟨s.user_id, sid, s.caller_info, s.history, "Session ended",
                now - s.start_time, s.start_time⟩
    ∧ 0 ≤ now - s.start_time := by
  rw [end_session_live_eq sid s .insertOk now st hsid hne hget]
  exact ⟨rfl, storeGet_erase_self st sid, rfl, by omega⟩

theorem end_session_finalized_record_witness :
    pyStrip "S" = "S" ∧ "S" ≠ "" ∧ storeGet demoStore "S" = some demoSession
    ∧ demoSession.start_time ≤ 7
    ∧ (end_public_session (some "S") .insertOk 7 demoStore).1 = EndResp.ok 7
    ∧ storeGet (end_public_session (some "S") .insertOk 7 demoStore).2.1 "S" = none
    ∧ (end_public_session (some "S") .insertOk 7 demoStore).2.2
        = some ⟨1, "S", [("name", "Alex")], [], "Session ended", 7, 0⟩
    ∧ (0 : Int) ≤ 7 - demoSession.start_time := by
  have h := end_session_finalized_record "S" demoSession 7 demoStore
    (by decide) (by decide) (by decide) (by decide)
  exact ⟨by decide, by decide, by decide, by decide, h.1, h.2.1, h.2.2.1, h.2.2.2⟩

/-! ## Session creation -/

theorem storeErase_of_none (st : Store) (k : String)
    (h : storeGet st k = none) : storeErase st k = st := by
  rw [storeGet_eq_none_iff] at h
  apply List.filter_eq_self.mpr
  intro p hp
  simpa using h p hp

/-- C7: a successful session creation registers, under the generated id, a
session with empty history and `startedAt = lastActivityAt = now`; the id is
fresh (it was not registered for any live session, so the new binding is
added without displacing any existing one, and every other id's binding is
untouched). -/
theorem start_session_creates_fresh
    (slug0 : String) (ci : List (String × String)) (u : PubUser) (sid : String)
    (now : Int) (st : Store)
    (hslug : pyStrip slug0 ≠ "")
    (hfresh : storeGet st sid = none) :
    (start_public_session (some slug0) ci (some u) sid now st).1
        = StartResp.ok sid (greetingFor u.name)
    ∧ storeGet (start_public_session (some slug0) ci (some u) sid now st).2 sid
        = some { user_id := u.id, slug := pyStrip slug0, caller_info := ci,
                 history := [], start_time := now, last_activity := now }
    ∧ (start_public_session (some slug0) ci (some u) sid now st).2
        = (sid, { user_id := u.id, slug := pyStrip slug0, caller_info := ci,
                  history := [], start_time := now,
                  last_activity := now : Session }) :: st
    ∧ (∀ k, k ≠ sid →
        storeGet (start_public_session (some slug0) ci (some u) sid now st).2 k
          = storeGet st k) := by
  simp only [start_public_session, Option.getD_some]
  rw [if_neg hslug]
  refine ⟨rfl, storeGet_insert_self st sid _, ?_,
    fun k hk => storeGet_insert_ne st sid k _ hk⟩
  show storeInsert st sid _ = _
  rw [storeInsert, storeErase_of_none st sid hfresh]

theorem start_session_creates_fresh_witness :
    pyStrip "acme" ≠ "" ∧ storeGet demoStore "U" = none
    ∧ (start_public_session (some "acme") [("name", "Alex")] (some demoUser)
          "U" 9 demoStore).1
        = StartResp.ok "U" (greetingFor "Dana")
    ∧ storeGet (start_public_session (some "acme") [("name", "Alex")] (some demoUser)
          "U" 9 demoStore).2 "U"
        = some { user_id := 1, slug := "acme", caller_info := [("name", "Alex")],
                 history := [], start_time := 9, last_activity := 9 } := by
  have h := start_session_creates_fresh "acme" [("name", "Alex")] demoUser "U" 9
    demoStore (by decide) (by decide)
  exact ⟨by decide, by decide, h.1, h.2.1⟩

/-- C8: the greeting returned by a successful start request is the fixed
function `greetingFor` of the owner's display name — any two start requests
for owners with the same display name return the same greeting — and the
greeting is not recorded as a turn: the created session's history is empty. -/
theorem start_session_greeting_deterministic
    (slug0 : String) (ci : List (String × String)) (u : PubUser) (sid : String)
    (now : Int) (st : Store)
    (hslug : pyStrip slug0 ≠ "") :
    (start_public_session (some slug0) ci (some u) sid now st).1
        = StartResp.ok sid (greetingFor u.name)
    ∧ storeGet (start_public_session (some slug0) ci (some u) sid now st).2 sid
        = some { user_id := u.id, slug := pyStrip slug0, caller_info := ci,
                 history := [], start_time := now, last_activity := now }
    ∧ (∀ (slug' : String) (ci' : List (String × String)) (u' : PubUser)
         (sid' : String) (now' : Int) (st' : Store),
        pyStrip slug' ≠ "" → u'.name = u.name →
        (start_public_session (some slug') ci' (some u') sid' now' st').1
          = StartResp.ok sid' (greetingFor u.name)) := by
  refine ⟨?_, ?_, ?_⟩
  · simp only [start_public_session, Option.getD_some]
    rw [if_neg hslug]
  · simp only [start_public_session, Option.getD_some]
    rw [if_neg hslug]
    exact storeGet_insert_self st sid _
  · intro slug' ci' u' sid' now' st' hslug' hname
    simp only [start_public_session, Option.getD_some]
    rw [if_neg hslug', hname]

theorem start_session_greeting_deterministic_witness :
    pyStrip "acme" ≠ ""
    ∧ (start_public_session (some "acme") [] (some demoUser) "U" 9 demoStore).1
        = StartResp.ok "U" (greetingFor "Dana")
    ∧ (start_public_session (some "beta") [("x", "y")] (some { id := 4, name := "Dana" })
          "V" 11 []).1
        = StartResp.ok "V" (greetingFor "Dana") := by
  have h := start_session_greeting_deterministic "acme" [] demoUser "U" 9 demoStore
    (by decide)
  exact ⟨by decide, h.1, h.2.2 "beta" [("x", "y")] { id := 4, name := "Dana" } "V" 11 []
    (by decide) (by decide)⟩

/-! ## Removed ids never resolve again -/

theorem storeGet_runOp_none (st : Store) (id : String) (op : ReqOp)
    (h : storeGet st id = none) (hs : op.startId ≠ some id) :
    storeGet (runOp st op) id = none := by
  cases op with
  | start slug0 ci dbUser sid now =>
    simp only [ReqOp.startId] at hs
    have hsid : id ≠ sid := fun e => hs (by rw [e])
    simp only [runOp, start_public_session]
    by_cases hslug : pyStrip (slug0.getD "") = ""
    · rw [if_pos hslug]
      exact h
    · rw [if_neg hslug]
      cases dbUser with
      | none => exact h
      | some u => exact (storeGet_insert_ne st sid id _ hsid).trans h
  | msg sid0 msg0 outcome now =>
    simp only [runOp, send_public_message]
    by_cases hempty : pyStrip (sid0.getD "") = "" ∨ pyStrip (msg0.getD "") = ""
    · rw [if_pos hempty]
      exact h
    · rw [if_neg hempty]
      cases hg : storeGet st (pyStrip (sid0.getD "")) with
      | none => exact h
      | some s =>
        have hkid : id ≠ pyStrip (sid0.getD "") := by
          intro e
          rw [← e, h] at hg
          cases hg
        exact (storeGet_insert_ne st _ id _ hkid).trans h
  | finish sid0 persist now =>
    simp only [runOp, end_public_session]
    by_cases hempty : pyStrip (sid0.getD "") = ""
    · rw [if_pos hempty]
      exact h
    · rw [if_neg hempty]
      cases hg : storeGet st (pyStrip (sid0.getD "")) with
      | none => exact h
      | some s => cases persist <;> exact storeGet_erase_none st _ id h
  | sweep now =>
    simp only [runOp, cleanup_sessions_pass]
    rw [foldl_storeErase]
    exact storeGet_filter_none st _ id h

theorem storeGet_runOps_none (ops : List ReqOp) (id : String) :
    ∀ st : Store, storeGet st id = none →
    (∀ op ∈ ops, ReqOp.startId op ≠ some id) →
    storeGet (runOps ops st) id = none := by
  induction ops with
  | nil =>
    intro st h _
    exact h
  | cons op ops ih =>
    intro st h hfresh
    exact ih (runOp st op)
      (storeGet_runOp_none st id op h (hfresh op (List.mem_cons_self op ops)))
      (fun o ho => hfresh o (List.mem_cons_of_mem op ho))

/-- C3: against an id that is not registered (never created, or removed by
an explicit end or by the sweep), a message request returns the
`'Session not found'` condition (404) and leaves the store unchanged, an end
request reports `'Session not found'` (it neither computes a duration nor
touches any live session), and — as long as no later start request is
handed that same id by the uuid generator — the id never again resolves to
a live session under any sequence of requests. -/
theorem missing_session_not_found
    (id : String) (st : Store)
    (hid : pyStrip id = id) (hne : id ≠ "")
    (h : storeGet st id = none) :
    (∀ (m : String) (outcome : LLMOutcome) (now : Int),
        pyStrip m = m → m ≠ "" →
        send_public_message (some id) (some m) outcome now st
          = (.err "Session not found" 404, st))
    ∧ (∀ (persist : PersistOutcome) (now : Int),
        end_public_session (some id) persist now st = (.okNotFound, st, none))
    ∧ (∀ ops : List ReqOp, (∀ op ∈ ops, op.startId ≠ some id) →
        storeGet (runOps ops st) id = none) := by
  refine ⟨?_, ?_, ?_⟩
  · intro m outcome now hm hmne
    simp only [send_public_message, Option.getD_some, hid, hm]
    rw [if_neg (by simp [hne, hmne]), h]
  · intro persist now
    simp only [end_public_session, Option.getD_some, hid]
    rw [if_neg hne, h]
  · intro ops hfresh
    exact storeGet_runOps_none ops id st h hfresh

theorem missing_session_not_found_witness :
    pyStrip "X" = "X" ∧ "X" ≠ "" ∧ storeGet demoStore "X" = none
    ∧ send_public_message (some "X") (some "hi") .exn 5 demoStore
        = (.err "Session not found" 404, demoStore)
    ∧ end_public_session (some "X") .insertOk 6 demoStore
        = (.okNotFound, demoStore, none)
    ∧ storeGet (runOps [ReqOp.start (some "acme") [] (some demoUser) "T" 3,
                        ReqOp.msg (some "S") (some "yo") .exn 5,
                        ReqOp.finish (some "S") .noConn 7,
                        ReqOp.sweep 99999] demoStore) "X" = none := by
  have h := missing_session_not_found "X" demoStore (by decide) (by decide) (by decide)
  exact ⟨by decide, by decide, by decide,
    h.1 "hi" .exn 5 (by decide) (by decide),
    h.2.1 .insertOk 6,
    h.2.2 _ (by decide)⟩

/-! ## Expiry sweep -/

/-- C5: for any store (with the dict's unique keys) one sweep pass removes
exactly the sessions whose idle time strictly exceeds the 30-minute
threshold, leaving every other entry — key, fields and order — unchanged
(the result is the filter of the original list), and a second pass at the
same instant removes nothing. -/
theorem sweep_removes_exactly_expired (now : Int) (st : Store)
    (hN : (st.map Prod.fst).Nodup) :
    cleanup_sessions_pass now st
      = st.filter (fun p => decide (now - p.2.last_activity ≤ idleThresholdSeconds))
    ∧ (∀ p ∈ st, p ∈ cleanup_sessions_pass now st
        ↔ now - p.2.last_activity ≤ idleThresholdSeconds)
    ∧ cleanup_sessions_pass now (cleanup_sessions_pass now st)
      = cleanup_sessions_pass now st := by
  have h1 := cleanup_eq_filter now st hN
  have hsub : List.Sublist
      ((st.filter
        (fun p => decide (now - p.2.last_activity ≤ idleThresholdSeconds))).map Prod.fst)
      (st.map Prod.fst) :=
    (List.filter_sublist st).map Prod.fst
  have hN2 := hN.sublist hsub
  refine ⟨h1, ?_, ?_⟩
  · intro p hp
    rw [h1, List.mem_filter]
    simp [hp]
  · rw [h1, cleanup_eq_filter now _ hN2]
    apply List.filter_eq_self.mpr
    intro p hp
    exact (List.mem_filter.mp hp).2

theorem sweep_removes_exactly_expired_witness :
    ((demoStore2.map Prod.fst).Nodup)
    ∧ cleanup_sessions_pass 5000 demoStore2
        = demoStore2.filter
            (fun p => decide (5000 - p.2.last_activity ≤ idleThresholdSeconds))
    ∧ cleanup_sessions_pass 5000 (cleanup_sessions_pass 5000 demoStore2)
        = cleanup_sessions_pass 5000 demoStore2 := by
  have h := sweep_removes_exactly_expired 5000 demoStore2 (by decide)
  exact ⟨by decide, h.1, h.2.2⟩
